import Mathlib

/-!
Verification development for the TripPilot client (`client/app/create/page.tsx`
and the other page components).  The chat wizard state, its three handlers
(`handleSendMessage`, `handleAddAnotherTrip`, `handleSubmitAllTrips`) and the
session-gated render dispatch of each page component are embedded as pure
Lean functions; asynchronous `setTimeout` callbacks and React `setX` updates
are composed in program order into a single state transformer.
-/

namespace TripPilot

/-- The `Trip` interface: eight string fields collected by the wizard. -/
structure Trip where
  destination : String
  budget : String
  startDate : String
  endDate : String
  travelers : String
  accessibility : String
  interests : String
  notes : String
  deriving Repr, DecidableEq

/-- The trip record with every field set to the empty string, as in the
`useState` initialiser and the reset literals. -/
def emptyTrip : Trip :=
  ⟨"", "", "", "", "", "", "", ""⟩

/-- The field names appearing in `steps`; they are exactly the keys of `Trip`,
so the dynamic key update `[currentStep.field]: inputMessage` is total. -/
inductive TripField where
  | destination | budget | startDate | endDate
  | travelers | accessibility | interests | notes
  deriving Repr, DecidableEq

/-- Read one named field of a trip record. -/
def tripGet (t : Trip) : TripField → String
  | .destination => t.destination
  | .budget => t.budget
  | .startDate => t.startDate
  | .endDate => t.endDate
  | .travelers => t.travelers
  | .accessibility => t.accessibility
  | .interests => t.interests
  | .notes => t.notes

/-- The spread-update `{ ...prev, [field]: v }` on a trip record. -/
def setTripField (t : Trip) (f : TripField) (v : String) : Trip :=
  match f with
  | .destination => { t with destination := v }
  | .budget => { t with budget := v }
  | .startDate => { t with startDate := v }
  | .endDate => { t with endDate := v }
  | .travelers => { t with travelers := v }
  | .accessibility => { t with accessibility := v }
  | .interests => { t with interests := v }
  | .notes => { t with notes := v }

/-- One entry of the hard-coded `steps` array. -/
structure Step where
  field : TripField
  prompt : String
  deriving Repr, DecidableEq

/-- The fixed ordered list of prompts (`const steps = [...]`). -/
def steps : List Step :=
  [ ⟨.destination, "Where would you like to go?"⟩,
    ⟨.budget, "What\x27s your budget for this trip?"⟩,
    ⟨.startDate, "When will the trip start? (YYYY-MM-DD)"⟩,
    ⟨.endDate, "When will the trip end? (YYYY-MM-DD)"⟩,
    ⟨.travelers, "How many people are traveling?"⟩,
    ⟨.accessibility, "Do you have any accessibility needs?"⟩,
    ⟨.interests, "What type of activities or experiences interest you?"⟩,
    ⟨.notes, "Any additional notes or preferences?"⟩ ]

/-- Fallback step used to totalise the in-bounds array read
`steps[stepIndex + 1]`; it is only consulted under the guard
`stepIndex < steps.length - 1`, which keeps the index in bounds. -/
def defaultStep : Step := ⟨.destination, ""⟩

/-- Message author: the chat rows carry `type: "bot"` or `type: "user"`. -/
inductive MsgType where
  | bot | user
  deriving Repr, DecidableEq

/-- One chat message (the `timestamp` is wall-clock UI data and is omitted). -/
structure Message where
  id : Nat
  type : MsgType
  content : String
  deriving Repr, DecidableEq

/-- The initial greeting placed in `messages` by its `useState` initialiser. -/
def greetingMsg : Message :=
  ⟨1, .bot,
    "Hello! I\x27m your TripPilot AI assistant. I\x27m here to help you plan the perfect trip."⟩

/-- Bot line shown when the last step has been answered. -/
def completionMsg : String :=
  "Got all the details! Would you like to submit this trip or add another one?"

/-- Fixed success line appended by `handleSubmitAllTrips`. -/
def submitSuccessMsg : String :=
  "Thanks! Your trip(s) have been submitted successfully 🚀"

/-- Fixed failure line appended by the `catch` branch of `handleSubmitAllTrips`. -/
def submitFailureMsg : String :=
  "Sorry, there was an error submitting your trip(s). Please try again later. ❌"

/-- JavaScript `String.prototype.trim`: drop leading and trailing
whitespace.  (Structurally recursive so that concrete inputs evaluate.) -/
def jsTrim (s : String) : String :=
  String.mk
    (((s.toList.dropWhile Char.isWhitespace).reverse.dropWhile Char.isWhitespace).reverse)

/-- The React state of the create page that the handlers read and write. -/
structure PageState where
  stepIndex : Nat
  tripData : Trip
  currentTrips : List Trip
  messages : List Message
  inputMessage : String
  isTyping : Bool
  isSubmitting : Bool
  deriving Repr, DecidableEq

/-- The state produced by the `useState` initialisers of the create page. -/
def initState : PageState :=
  { stepIndex := 0
    tripData := emptyTrip
    currentTrips := []
    messages := [greetingMsg]
    inputMessage := ""
    isTyping := false
    isSubmitting := false }

/-- The initial-prompt `useEffect`: appends `steps[0].prompt` to the
transcript (its once-only guard and timer do not affect the other state). -/
def showInitialPrompt (s : PageState) : PageState :=
  { s with messages :=
      s.messages ++ [⟨s.messages.length + 1, .bot, (steps.getD 0 defaultStep).prompt⟩] }

/-- `handleSendMessage`, with the two `setTimeout` bodies run in program
order.  A blank (empty after `trim`) input returns early; otherwise the user
message is appended, the answer is stored under `steps[stepIndex].field`, the
input is cleared, and the bot either advances to the next prompt (guard
`stepIndex < steps.length - 1`) or shows the fixed completion line. -/
def handleSendMessage (s : PageState) : PageState :=
  if jsTrim s.inputMessage = "" then s
  else
    let userMessage : Message := ⟨s.messages.length + 1, .user, s.inputMessage⟩
    let msgs1 := s.messages ++ [userMessage]
    let trip1 :=
      match steps[s.stepIndex]? with
      | some st => setTripField s.tripData st.field s.inputMessage
      | none => s.tripData
    if s.stepIndex < steps.length - 1 then
      let botMessage : Message :=
        ⟨s.messages.length + 2, .bot, (steps.getD (s.stepIndex + 1) defaultStep).prompt⟩
      { s with messages := msgs1 ++ [botMessage], tripData := trip1,
               inputMessage := "", isTyping := false, stepIndex := s.stepIndex + 1 }
    else
      let botMessage : Message := ⟨s.messages.length + 2, .bot, completionMsg⟩
      { s with messages := msgs1 ++ [botMessage], tripData := trip1,
               inputMessage := "", isTyping := false }

/-- `handleAddAnotherTrip`: push the current record onto `currentTrips`,
reset every field, restart the wizard at step 0 and re-show the first prompt. -/
def handleAddAnotherTrip (s : PageState) : PageState :=
  { s with currentTrips := s.currentTrips ++ [s.tripData]
           tripData := emptyTrip
           stepIndex := 0
           messages := s.messages ++
             [⟨s.messages.length + 1, .bot, (steps.getD 0 defaultStep).prompt⟩] }

/-- A network call issued by `handleSubmitAllTrips`, with the submitted
payload recorded on the final POST. -/
inductive NetCall where
  | checkUserExists
  | registerUser
  | submitTrips (payload : List Trip)
  deriving Repr, DecidableEq

/-- The environment `handleSubmitAllTrips` runs against: the session token
(`none` when `getSession` yields no `accessToken`) and the outcome of each
HTTP call.  `checkUserRes` carries `checkRes.data?.exists` on success
(`none` when the response body lacks the flag); `Except.error` means the
call rejected/threw. -/
structure SubmitEnv where
  token : Option String
  checkUserRes : Except Unit (Option Bool)
  registerRes : Except Unit Unit
  submitRes : Except Unit Unit
  deriving Repr

/-- The `try` block of `handleSubmitAllTrips`: which calls are issued, in
order, and whether the block completes without throwing.  A missing token
throws before any call; the register POST is issued only when
`!checkRes.data?.exists` (absent counts as falsy). -/
def submitFlow (env : SubmitEnv) (allTrips : List Trip) : List NetCall × Bool :=
  match env.token with
  | none => ([], false)
  | some _ =>
    match env.checkUserRes with
    | .error _ => ([NetCall.checkUserExists], false)
    | .ok userFlag =>
      if userFlag.getD false then
        match env.submitRes with
        | .error _ => ([NetCall.checkUserExists, NetCall.submitTrips allTrips], false)
        | .ok _ => ([NetCall.checkUserExists, NetCall.submitTrips allTrips], true)
      else
        match env.registerRes with
        | .error _ => ([NetCall.checkUserExists, NetCall.registerUser], false)
        | .ok _ =>
          match env.submitRes with
          | .error _ =>
            ([NetCall.checkUserExists, NetCall.registerUser, NetCall.submitTrips allTrips], false)
          | .ok _ =>
            ([NetCall.checkUserExists, NetCall.registerUser, NetCall.submitTrips allTrips], true)

/-- `handleSubmitAllTrips`: builds `allTrips = [...currentTrips, tripData]`,
runs the REST flow, appends the fixed success line (try completed) or the
fixed failure line (catch), and in `finally` clears `isSubmitting`, the trip
record, the accumulated list and the step index.  Returns the new state and
the list of calls issued. -/
def handleSubmitAllTrips (env : SubmitEnv) (s : PageState) : PageState × List NetCall :=
  let allTrips := s.currentTrips ++ [s.tripData]
  let r := submitFlow env allTrips
  let content := if r.2 then submitSuccessMsg else submitFailureMsg
  ({ s with messages := s.messages ++ [⟨s.messages.length + 1, .bot, content⟩]
            isSubmitting := false
            tripData := emptyTrip
            currentTrips := []
            stepIndex := 0 }, r.1)

/-- The `useSession` status values consulted by the page components. -/
inductive AuthStatus where
  | loading | unauthenticated | authenticated
  deriving Repr, DecidableEq

/-- Which top-level view a page component returns. -/
inductive PageView where
  | loadingView | accessRequiredView | mainView
  deriving Repr, DecidableEq

/-- Render dispatch of the create page (`client/app/create/page.tsx`):
loading check, then unauthenticated check, then the chat UI. -/
def renderCreatePage : AuthStatus → PageView
  | .loading => .loadingView
  | .unauthenticated => .accessRequiredView
  | .authenticated => .mainView

/-- Render dispatch of the dashboard page component. -/
def renderDashboardPage : AuthStatus → PageView
  | .loading => .loadingView
  | .unauthenticated => .accessRequiredView
  | .authenticated => .mainView

/-- Render dispatch of the menu page component. -/
def renderMenuPage : AuthStatus → PageView
  | .loading => .loadingView
  | .unauthenticated => .accessRequiredView
  | .authenticated => .mainView

/-- Render dispatch of the free-form chat page component. -/
def renderChatPage : AuthStatus → PageView
  | .loading => .loadingView
  | .unauthenticated => .accessRequiredView
  | .authenticated => .mainView

/-- States of the create page reachable from the `useState` initialisers by
typing into the input, the initial-prompt effect, and the three handlers. -/
inductive Reachable : PageState → Prop where
  | init : Reachable initState
  | typeInput (t : String) {s : PageState} :
      Reachable s → Reachable { s with inputMessage := t }
  | showPrompt {s : PageState} :
      Reachable s → Reachable (showInitialPrompt s)
  | send {s : PageState} :
      Reachable s → Reachable (handleSendMessage s)
  | addTrip {s : PageState} :
      Reachable s → Reachable (handleAddAnotherTrip s)
  | submit (env : SubmitEnv) {s : PageState} :
      Reachable s → Reachable (handleSubmitAllTrips env s).1

lemma steps_length : steps.length = 8 := rfl

lemma tripGet_setTripField_same (t : Trip) (f : TripField) (v : String) :
    tripGet (setTripField t f v) f = v := by
  cases f <;> rfl

lemma tripGet_setTripField_ne (t : Trip) (f g : TripField) (v : String)
    (h : g ≠ f) : tripGet (setTripField t f v) g = tripGet t g := by
  cases f <;> cases g <;> first | rfl | exact absurd rfl h

lemma sendMessage_tripData (s : PageState) (st : Step)
    (h : ¬ jsTrim s.inputMessage = "") (hst : steps[s.stepIndex]? = some st) :
    (handleSendMessage s).tripData = setTripField s.tripData st.field s.inputMessage := by
  by_cases hlt : s.stepIndex < steps.length - 1 <;>
    simp [handleSendMessage, h, hst, hlt]

lemma sendMessage_stepIndex (s : PageState) :
    (handleSendMessage s).stepIndex =
      if jsTrim s.inputMessage = "" then s.stepIndex
      else if s.stepIndex < steps.length - 1 then s.stepIndex + 1
      else s.stepIndex := by
  by_cases hb : jsTrim s.inputMessage = "" <;>
    by_cases hlt : s.stepIndex < steps.length - 1 <;>
      cases hg : steps[s.stepIndex]? <;>
        simp [handleSendMessage, hb, hlt, hg]

lemma sendMessage_messages (s : PageState) (h : ¬ jsTrim s.inputMessage = "") :
    (handleSendMessage s).messages =
      s.messages ++
        [⟨s.messages.length + 1, MsgType.user, s.inputMessage⟩,
         ⟨s.messages.length + 2, MsgType.bot,
          if s.stepIndex < steps.length - 1 then
            (steps.getD (s.stepIndex + 1) defaultStep).prompt
          else completionMsg⟩] := by
  by_cases hlt : s.stepIndex < steps.length - 1 <;>
    cases hg : steps[s.stepIndex]? <;>
      simp [handleSendMessage, h, hlt, hg]

lemma sendMessage_stepIndex_le (s : PageState)
    (h : s.stepIndex ≤ steps.length - 1) :
    (handleSendMessage s).stepIndex ≤ steps.length - 1 := by
  rw [sendMessage_stepIndex, steps_length]
  rw [steps_length] at h
  split
  · exact h
  · split <;> omega

lemma submitFlow_payload (env : SubmitEnv) (ts : List Trip) (p : List Trip)
    (hp : NetCall.submitTrips p ∈ (submitFlow env ts).1) : p = ts := by
  unfold submitFlow at hp
  repeat' split at hp
  all_goals simp_all

/-- A concrete non-blank mid-conversation state used to instantiate the
hypotheses of the wizard theorems. -/
def sampleState : PageState := { initState with inputMessage := "Paris" }

/-- A concrete submission environment in which every call succeeds and the
existence check reports the user present. -/
def okEnv : SubmitEnv :=
  ⟨some "tok", Except.ok (some true), Except.ok (), Except.ok ()⟩

/-- A concrete submission environment in which every call succeeds and the
existence check reports the user absent. -/
def okEnvAbsent : SubmitEnv :=
  ⟨some "tok", Except.ok (some false), Except.ok (), Except.ok ()⟩

/-- C1: `handleSubmitAllTrips` is a check-then-register-then-submit flow in
that order: the user-existence GET is issued first; the register POST is
issued exactly when the check reported the user absent; the trips POST
follows; when the check says the user exists the register call is skipped. -/
theorem submit_rest_flow_order (env : SubmitEnv) (s : PageState)
    (tk : String) (userFlag : Option Bool)
    (htk : env.token = some tk)
    (hc : env.checkUserRes = Except.ok userFlag)
    (hr : env.registerRes = Except.ok ()) :
    (handleSubmitAllTrips env s).2 =
      [NetCall.checkUserExists] ++
        (if userFlag.getD false then [] else [NetCall.registerUser]) ++
        [NetCall.submitTrips (s.currentTrips ++ [s.tripData])] := by
  cases hf : userFlag.getD false <;>
    cases hsub : env.submitRes <;>
      simp [handleSubmitAllTrips, submitFlow, htk, hc, hr, hf, hsub]

/-- Concrete run of the C1 theorem: user reported absent, so the register
call sits between the check and the submit. -/
theorem submit_rest_flow_order_witness :
    okEnvAbsent.token = some "tok" ∧
    (handleSubmitAllTrips okEnvAbsent initState).2 =
      [NetCall.checkUserExists] ++
        (if (some false : Option Bool).getD false then [] else [NetCall.registerUser]) ++
        [NetCall.submitTrips (initState.currentTrips ++ [initState.tripData])] :=
  ⟨rfl, submit_rest_flow_order okEnvAbsent initState "tok" (some false) rfl rfl rfl⟩

/-- C2: every run of `handleSubmitAllTrips` appends exactly one bot message
to the transcript, whose content is the fixed success string exactly when
the flow completed (token present, check succeeded, register succeeded
whenever it was needed, submit succeeded) and the fixed failure string
otherwise; the two strings differ, so no other content is possible. -/
theorem submit_one_of_two_messages (env : SubmitEnv) (s : PageState) :
    ((handleSubmitAllTrips env s).1.messages =
      s.messages ++
        [⟨s.messages.length + 1, MsgType.bot,
          if (submitFlow env (s.currentTrips ++ [s.tripData])).2 then submitSuccessMsg
          else submitFailureMsg⟩]) ∧
    ((submitFlow env (s.currentTrips ++ [s.tripData])).2 = true ↔
      (∃ tk, env.token = some tk) ∧
      (∃ userFlag, env.checkUserRes = Except.ok userFlag ∧
        (userFlag.getD false = false → env.registerRes = Except.ok ())) ∧
      env.submitRes = Except.ok ()) ∧
    submitSuccessMsg ≠ submitFailureMsg := by
  refine ⟨by simp [handleSubmitAllTrips], ?_, by decide⟩
  rcases env with ⟨tok, chk, reg, sub⟩
  cases tok <;> rcases chk with _ | uf <;> cases reg <;> cases sub <;>
    simp [submitFlow] <;>
      (cases huf : uf.getD false <;> simp [huf])

/-- C3: with a non-blank answer the wizard is a fixed linear sequence:
below the last index the bot shows `steps[i+1].prompt` and the index becomes
`i + 1`, whatever the answer text was; at index 7 the index stays put and
the fixed completion line is shown. -/
theorem sendMessage_linear (s : PageState) (h : jsTrim s.inputMessage ≠ "") :
    (s.stepIndex < 7 →
      (handleSendMessage s).stepIndex = s.stepIndex + 1 ∧
      (handleSendMessage s).messages =
        s.messages ++
          [⟨s.messages.length + 1, MsgType.user, s.inputMessage⟩,
           ⟨s.messages.length + 2, MsgType.bot,
            (steps.getD (s.stepIndex + 1) defaultStep).prompt⟩]) ∧
    (s.stepIndex = 7 →
      (handleSendMessage s).stepIndex = 7 ∧
      (handleSendMessage s).messages =
        s.messages ++
          [⟨s.messages.length + 1, MsgType.user, s.inputMessage⟩,
           ⟨s.messages.length + 2, MsgType.bot, completionMsg⟩]) := by
  constructor
  · intro hlt
    have hlt' : s.stepIndex < steps.length - 1 := by rw [steps_length]; omega
    refine ⟨?_, ?_⟩
    · rw [sendMessage_stepIndex, if_neg h, if_pos hlt']
    · rw [sendMessage_messages s h, if_pos hlt']
  · intro heq
    have hlt' : ¬ s.stepIndex < steps.length - 1 := by rw [steps_length]; omega
    refine ⟨?_, ?_⟩
    · rw [sendMessage_stepIndex, if_neg h, if_neg hlt', heq]
    · rw [sendMessage_messages s h, if_neg hlt']

/-- Concrete run of the C3 theorem: answering the first prompt advances
the wizard to step 1. -/
theorem sendMessage_linear_witness :
    (handleSendMessage sampleState).stepIndex = 1 := by
  have hmain := sendMessage_linear sampleState (by decide)
  simpa [sampleState, initState] using (hmain.1 (by decide)).1

/-- C4: an accepted answer is stored under the named field
`steps[stepIndex].field` of the trip record, and every other field of the
record keeps its previous value. -/
theorem sendMessage_stores_named_field (s : PageState) (st : Step)
    (h : jsTrim s.inputMessage ≠ "") (hst : steps[s.stepIndex]? = some st) :
    tripGet (handleSendMessage s).tripData st.field = s.inputMessage ∧
    (∀ f : TripField, f ≠ st.field →
      tripGet (handleSendMessage s).tripData f = tripGet s.tripData f) := by
  rw [sendMessage_tripData s st h hst]
  exact ⟨tripGet_setTripField_same _ _ _,
    fun f hf => tripGet_setTripField_ne _ _ _ _ hf⟩

/-- Concrete run of the C4 theorem: the first answer lands in `destination`
and `budget` keeps its (empty) value. -/
theorem sendMessage_stores_named_field_witness :
    tripGet (handleSendMessage sampleState).tripData TripField.destination = "Paris" ∧
    tripGet (handleSendMessage sampleState).tripData TripField.budget = "" := by
  have hmain := sendMessage_stores_named_field sampleState
    ⟨TripField.destination, "Where would you like to go?"⟩ (by decide) (by decide)
  refine ⟨hmain.1, ?_⟩
  simpa [sampleState, initState, emptyTrip, tripGet] using
    hmain.2 TripField.budget (by decide)

/-- C5: `handleAddAnotherTrip` appends the current trip record to the
accumulated list, resets all eight fields to the empty string, resets the
step index to 0 and re-shows the first prompt. -/
theorem addAnotherTrip_resets (s : PageState) :
    (handleAddAnotherTrip s).currentTrips = s.currentTrips ++ [s.tripData] ∧
    (handleAddAnotherTrip s).tripData = emptyTrip ∧
    (∀ f : TripField, tripGet (handleAddAnotherTrip s).tripData f = "") ∧
    (handleAddAnotherTrip s).stepIndex = 0 ∧
    (handleAddAnotherTrip s).messages =
      s.messages ++
        [⟨s.messages.length + 1, MsgType.bot, (steps.getD 0 defaultStep).prompt⟩] := by
  refine ⟨rfl, rfl, ?_, rfl, rfl⟩
  intro f
  cases f <;> rfl

/-- C6: the only payload ever posted by the submit flow is the accumulated
trip list with the in-progress record appended at the end. -/
theorem submit_payload_is_all_trips (env : SubmitEnv) (s : PageState)
    (p : List Trip) (hp : NetCall.submitTrips p ∈ (handleSubmitAllTrips env s).2) :
    p = s.currentTrips ++ [s.tripData] :=
  submitFlow_payload env _ p hp

/-- Concrete run of the C6 theorem: a successful submission posts exactly
`currentTrips ++ [tripData]`. -/
theorem submit_payload_is_all_trips_witness :
    ([emptyTrip] : List Trip) = initState.currentTrips ++ [initState.tripData] :=
  submit_payload_is_all_trips okEnv initState [emptyTrip] (by decide)

/-- C7: each session-gated page component renders the access-required view
(and not its main content) when unauthenticated, and the loading view while
the session is loading. -/
theorem gated_pages_require_auth :
    (renderCreatePage .unauthenticated = .accessRequiredView ∧
     renderCreatePage .unauthenticated ≠ .mainView ∧
     renderCreatePage .loading = .loadingView) ∧
    (renderDashboardPage .unauthenticated = .accessRequiredView ∧
     renderDashboardPage .unauthenticated ≠ .mainView ∧
     renderDashboardPage .loading = .loadingView) ∧
    (renderMenuPage .unauthenticated = .accessRequiredView ∧
     renderMenuPage .unauthenticated ≠ .mainView ∧
     renderMenuPage .loading = .loadingView) ∧
    (renderChatPage .unauthenticated = .accessRequiredView ∧
     renderChatPage .unauthenticated ≠ .mainView ∧
     renderChatPage .loading = .loadingView) := by
  decide

/-- C8: a blank (empty or whitespace-only) input makes `handleSendMessage`
return early, leaving the whole state — transcript, trip record and step
index included — unchanged. -/
theorem sendMessage_blank_noop (s : PageState) (h : jsTrim s.inputMessage = "") :
    handleSendMessage s = s := by
  simp [handleSendMessage, h]

/-- Concrete run of the C8 theorem on the initial (empty-input) state. -/
theorem sendMessage_blank_noop_witness :
    jsTrim initState.inputMessage = "" ∧ handleSendMessage initState = initState :=
  ⟨by decide, sendMessage_blank_noop initState (by decide)⟩

/-- C9: in every reachable state of the create page the step index is at
most `steps.length - 1 = 7`: it starts at 0, is incremented only under the
guard `stepIndex < steps.length - 1`, and is otherwise only reset to 0. -/
theorem stepIndex_bounded (s : PageState) (h : Reachable s) :
    s.stepIndex ≤ steps.length - 1 := by
  induction h with
  | init => exact Nat.zero_le _
  | typeInput t _ ih => exact ih
  | showPrompt _ ih => exact ih
  | send _ ih => exact sendMessage_stepIndex_le _ ih
  | addTrip _ ih => exact Nat.zero_le _
  | submit env _ ih => exact Nat.zero_le _

/-- The invariant holds at the initial state. -/
theorem stepIndex_bounded_witness :
    initState.stepIndex ≤ steps.length - 1 :=
  stepIndex_bounded initState Reachable.init

/-- C10: `handleSubmitAllTrips` clears its state in `finally`, on success
and failure alike: the trip record is emptied, the accumulated list is
dropped and the step index returns to 0. -/
theorem submit_clears_state (env : SubmitEnv) (s : PageState) :
    (handleSubmitAllTrips env s).1.tripData = emptyTrip ∧
    (handleSubmitAllTrips env s).1.currentTrips = [] ∧
    (handleSubmitAllTrips env s).1.stepIndex = 0 :=
  ⟨rfl, rfl, rfl⟩

end TripPilot
